import Mathlib

/-!
Shallow embedding of the asynchronous status reconciler and the resource
operations of the terraform OpenStack provider (DNS record sets, block-storage
volumes, load-balancer sub-resources, L7 policies, network data source).

External I/O is modelled by passing in the results the remote API would
return: a status-fetch sequence is a `List FetchResult`, and each mutating or
reading call is a parameter of type `Except String _`.
-/

/-- Result of one status fetch against the remote API: a successfully decoded
status string, a gophercloud `ErrDefault404` (HTTP 404 / not found), or any
other fetch failure. -/
inductive FetchResult where
  | status (s : String)
  | err404
  | errOther (msg : String)
deriving DecidableEq, Repr

/-- Terminal error of a status wait: an unexpected (neither target nor
pending) status, a fetch failure (404 or other), or timeout carrying the last
observed status. -/
inductive WaitError where
  | unexpectedStatus (s : String)
  | fetchErr404
  | fetchErrOther (msg : String)
  | timeout (last : Option String)
deriving DecidableEq, Repr

/-- Modelled from the spec: `resource.StateChangeConf.WaitForState` of the
terraform helper library is not part of src, so the wait loop is taken from
the specification of the Async Status Reconciler. Each fetch is classified in
order: status equal to the target succeeds; a status in the pending set
continues polling; any other status fails immediately with the unexpected
status; a fetch failure is surfaced as a hard failure of that poll attempt;
exhausting the fetch sequence is the timeout, which carries the last observed
status. The returned `Nat` counts the fetches consumed. -/
def waitRun : List FetchResult → String → List String → Option String →
    Nat × Except WaitError String
  | [], _, _, last => (0, Except.error (WaitError.timeout last))
  | FetchResult.status s :: rest, target, pending, _ =>
    if s = target then (1, Except.ok s)
    else if s ∈ pending then
      let r := waitRun rest target pending (some s)
      (r.1 + 1, r.2)
    else (1, Except.error (WaitError.unexpectedStatus s))
  | FetchResult.err404 :: _, _, _, _ => (1, Except.error WaitError.fetchErr404)
  | FetchResult.errOther m :: _, _, _, _ =>
    (1, Except.error (WaitError.fetchErrOther m))

/-- Modelled from the spec: the outcome of `WaitForState` on a fetch
sequence, discarding the fetch count of `waitRun`. -/
def waitForStatus (fetches : List FetchResult) (target : String)
    (pending : List String) : Except WaitError String :=
  (waitRun fetches target pending none).2

/-- Embeds `checkL7PolicyAction` of
`openstack/resource_openstack_lb_l7policy_v2.go`: action `REJECT` with either
companion field non-empty errs; `REDIRECT_TO_POOL` with a non-empty URL errs;
`REDIRECT_TO_URL` with a non-empty pool ID errs; otherwise it returns no
error (`none`). -/
def checkL7PolicyAction (action redirectURL redirectPoolID : String) :
    Option String :=
  if action = "REJECT" ∧ (redirectURL ≠ "" ∨ redirectPoolID ≠ "") then
    some ("redirect_url and redirect_pool_id must be empty when action is set to "
      ++ action)
  else if action = "REDIRECT_TO_POOL" ∧ redirectURL ≠ "" then
    some ("redirect_url must be empty when action is set to " ++ action)
  else if action = "REDIRECT_TO_URL" ∧ redirectPoolID ≠ "" then
    some ("redirect_pool_id must be empty when action is set to " ++ action)
  else none

/-- C1: `checkL7PolicyAction` returns an error exactly when action is
`REJECT` with a non-empty companion field, `REDIRECT_TO_POOL` with a
non-empty redirect URL, or `REDIRECT_TO_URL` with a non-empty redirect pool
ID; every other combination returns nil. -/
theorem checkL7PolicyAction_err_iff (a u p : String) :
    (∃ e, checkL7PolicyAction a u p = some e) ↔
      ((a = "REJECT" ∧ (u ≠ "" ∨ p ≠ "")) ∨
       (a = "REDIRECT_TO_POOL" ∧ u ≠ "") ∨
       (a = "REDIRECT_TO_URL" ∧ p ≠ "")) := by
  unfold checkL7PolicyAction
  split_ifs with h1 h2 h3 <;> simp_all

/-- C2 counterexample: `checkL7PolicyAction` with a redirect action and both
companion fields empty returns nil, not an error, so the validation does not
require the redirect field to be populated. -/
theorem checkL7PolicyAction_redirect_empty_ok :
    checkL7PolicyAction "REDIRECT_TO_POOL" "" "" = none ∧
    checkL7PolicyAction "REDIRECT_TO_URL" "" "" = none := by
  constructor <;> rfl

/-- C2 amended: for every action, `checkL7PolicyAction` with both companion
fields empty returns nil; the validation only rejects the forbidden companion
field and never requires one to be populated. -/
theorem checkL7PolicyAction_empty_companions (a : String) :
    checkL7PolicyAction a "" "" = none := by
  unfold checkL7PolicyAction
  split_ifs with h1 h2 h3 <;> simp_all

/-- A lbaas v2 listener as relevant here: its ID and the IDs of the load
balancers it references (`listener.Loadbalancers`). -/
structure Listener where
  id : String
  loadbalancers : List String
deriving DecidableEq, Repr

/-- Outcome of one of the `waitForLBV2*` wrappers of `src/unnamed/part_001`:
success, the specific loadbalancer-not-found error of
`waitForLBV2LoadBalancer`, the listener wrapper's "Unable to determine how to
check listener status" error, or the generic "Error waiting for ..." message
wrapping the wait's error. -/
inductive LBWaitResult where
  | ok
  | notFound (id : String)
  | undetermined
  | waitFailed (e : WaitError)
deriving DecidableEq, Repr

/-- Embeds `waitForLBV2LoadBalancer` of `src/unnamed/part_001`: runs the
status wait on the load balancer's provisioning status; on a 404 from the
wait, target `DELETED` succeeds and any other target yields the
loadbalancer-not-found error; any other wait error is wrapped in the generic
waiting error. -/
def waitForLBV2LoadBalancer (id target : String) (pending : List String)
    (fetches : List FetchResult) : LBWaitResult :=
  match waitForStatus fetches target pending with
  | Except.ok _ => LBWaitResult.ok
  | Except.error WaitError.fetchErr404 =>
    if target = "DELETED" then LBWaitResult.ok else LBWaitResult.notFound id
  | Except.error e => LBWaitResult.waitFailed e

/-- Embeds `waitForLBV2Listener` of `src/unnamed/part_001`: target `DELETED`
polls the listener itself, any other target polls the listener's first load
balancer when it has one, and with no load balancer the refresh function is
undetermined; on a 404 from the wait, target `DELETED` succeeds, while any
other error (the 404 included) is wrapped in the generic waiting error. -/
def waitForLBV2Listener (listener : Listener) (target : String)
    (pending : List String) (fetches : List FetchResult) : LBWaitResult :=
  if target = "DELETED" ∨ listener.loadbalancers.length > 0 then
    match waitForStatus fetches target pending with
    | Except.ok _ => LBWaitResult.ok
    | Except.error WaitError.fetchErr404 =>
      if target = "DELETED" then LBWaitResult.ok
      else LBWaitResult.waitFailed WaitError.fetchErr404
    | Except.error e => LBWaitResult.waitFailed e
  else LBWaitResult.undetermined

/-- Helper: after a prefix of pending statuses the wait reaches the target
and succeeds, consuming one fetch per pending status plus the final one. -/
theorem waitRun_pending_target (target : String) (pending : List String)
    (hT : target ∉ pending) (ps : List String) (last : Option String)
    (hps : ∀ p ∈ ps, p ∈ pending) :
    waitRun (ps.map FetchResult.status ++ [FetchResult.status target])
        target pending last
      = (ps.length + 1, Except.ok target) := by
  induction ps generalizing last with
  | nil => simp [waitRun]
  | cons p ps ih =>
    have hp : p ∈ pending := hps p (by simp)
    have hpt : ¬(p = target) := fun h => hT (h ▸ hp)
    have hrec := ih (some p) (fun q hq => hps q (by simp [hq]))
    simp [waitRun, hpt, hp, hrec]

/-- Helper: after a prefix of pending statuses, a status that is neither the
target nor pending fails immediately with an unexpected-status error,
regardless of any later fetches. -/
theorem waitRun_pending_unexpected (target : String) (pending : List String)
    (hT : target ∉ pending) (ps : List String) (s : String)
    (rest : List FetchResult) (last : Option String)
    (hps : ∀ p ∈ ps, p ∈ pending) (hs1 : s ≠ target) (hs2 : s ∉ pending) :
    waitRun (ps.map FetchResult.status ++ FetchResult.status s :: rest)
        target pending last
      = (ps.length + 1, Except.error (WaitError.unexpectedStatus s)) := by
  induction ps generalizing last with
  | nil => simp [waitRun, hs1, hs2]
  | cons p ps ih =>
    have hp : p ∈ pending := hps p (by simp)
    have hpt : ¬(p = target) := fun h => hT (h ▸ hp)
    have hrec := ih (some p) (fun q hq => hps q (by simp [hq]))
    simp [waitRun, hpt, hp, hrec]

/-- C5: when the target is not itself pending, a fetch sequence of k pending
statuses followed by the target makes the wait succeed after exactly k+1
fetches, and a fetch sequence whose first non-pending status is neither the
target nor a fetch failure makes the wait fail at that fetch with an
unexpected-status error, with no further polling; `waitForLBV2LoadBalancer`
accordingly returns success resp. the wrapped unexpected-status error. -/
theorem waitForStatus_polling (ps : List String) (target : String)
    (pending : List String) (s : String) (rest : List FetchResult)
    (id : String) (hps : ∀ p ∈ ps, p ∈ pending) (hT : target ∉ pending) :
    (waitRun (ps.map FetchResult.status ++ [FetchResult.status target])
        target pending none = (ps.length + 1, Except.ok target) ∧
     waitForLBV2LoadBalancer id target pending
        (ps.map FetchResult.status ++ [FetchResult.status target])
       = LBWaitResult.ok) ∧
    (s ≠ target → s ∉ pending →
      waitRun (ps.map FetchResult.status ++ FetchResult.status s :: rest)
          target pending none
        = (ps.length + 1, Except.error (WaitError.unexpectedStatus s)) ∧
      waitForLBV2LoadBalancer id target pending
          (ps.map FetchResult.status ++ FetchResult.status s :: rest)
        = LBWaitResult.waitFailed (WaitError.unexpectedStatus s)) := by
  constructor
  · have h := waitRun_pending_target target pending hT ps none hps
    refine ⟨h, ?_⟩
    simp [waitForLBV2LoadBalancer, waitForStatus, h]
  · intro hs1 hs2
    have h := waitRun_pending_unexpected target pending hT ps s rest none hps
      hs1 hs2
    refine ⟨h, ?_⟩
    simp [waitForLBV2LoadBalancer, waitForStatus, h]

/-- C5 witness: a concrete load-balancer wait over pending
`PENDING_CREATE` then target `ACTIVE`, and one hitting the unexpected
status `ERROR`. -/
theorem waitForStatus_polling_witness :
    (waitRun [FetchResult.status "PENDING_CREATE", FetchResult.status "ACTIVE"]
        "ACTIVE" ["PENDING_CREATE", "PENDING_UPDATE"] none
      = (2, Except.ok "ACTIVE") ∧
     waitForLBV2LoadBalancer "lb1" "ACTIVE" ["PENDING_CREATE", "PENDING_UPDATE"]
        [FetchResult.status "PENDING_CREATE", FetchResult.status "ACTIVE"]
       = LBWaitResult.ok) ∧
    (waitRun [FetchResult.status "PENDING_CREATE", FetchResult.status "ERROR"]
        "ACTIVE" ["PENDING_CREATE", "PENDING_UPDATE"] none
      = (2, Except.error (WaitError.unexpectedStatus "ERROR")) ∧
     waitForLBV2LoadBalancer "lb1" "ACTIVE" ["PENDING_CREATE", "PENDING_UPDATE"]
        [FetchResult.status "PENDING_CREATE", FetchResult.status "ERROR"]
       = LBWaitResult.waitFailed (WaitError.unexpectedStatus "ERROR")) := by
  have h := waitForStatus_polling ["PENDING_CREATE"] "ACTIVE"
    ["PENDING_CREATE", "PENDING_UPDATE"] "ERROR" [] "lb1"
    (by intro p hp; simp at hp; simp [hp]) (by simp)
  exact ⟨h.1, h.2 (by simp) (by simp)⟩

/-- C3: when the status wait ends with a 404 fetch failure, both
`waitForLBV2LoadBalancer` and `waitForLBV2Listener` succeed exactly when the
target is `DELETED`; otherwise `waitForLBV2LoadBalancer` returns the
loadbalancer-not-found error and `waitForLBV2Listener` (when it polls at all,
i.e. the listener references a load balancer) returns a failure carrying the
404. -/
theorem lbWait_notFound_handling (id target : String) (pending : List String)
    (fetches : List FetchResult) (listener : Listener)
    (h404 : waitForStatus fetches target pending
      = Except.error WaitError.fetchErr404) :
    (target = "DELETED" →
      waitForLBV2LoadBalancer id target pending fetches = LBWaitResult.ok ∧
      waitForLBV2Listener listener target pending fetches = LBWaitResult.ok) ∧
    (target ≠ "DELETED" →
      waitForLBV2LoadBalancer id target pending fetches
        = LBWaitResult.notFound id ∧
      (listener.loadbalancers.length > 0 →
        waitForLBV2Listener listener target pending fetches
          = LBWaitResult.waitFailed WaitError.fetchErr404)) := by
  constructor
  · intro hA
    subst hA
    simp [waitForLBV2LoadBalancer, waitForLBV2Listener, h404]
  · intro hA
    constructor
    · simp [waitForLBV2LoadBalancer, h404, hA]
    · intro hl
      simp [waitForLBV2Listener, h404, hA, hl]

/-- C3 witness: a concrete 404 during a `DELETED` wait succeeds for both
wrappers, and a concrete 404 during an `ACTIVE` wait fails for both. -/
theorem lbWait_notFound_handling_witness :
    (waitForLBV2LoadBalancer "lb1" "DELETED" [] [FetchResult.err404]
        = LBWaitResult.ok ∧
      waitForLBV2Listener ⟨"l1", ["lb1"]⟩ "DELETED" [] [FetchResult.err404]
        = LBWaitResult.ok) ∧
    (waitForLBV2LoadBalancer "lb1" "ACTIVE" [] [FetchResult.err404]
        = LBWaitResult.notFound "lb1" ∧
      waitForLBV2Listener ⟨"l1", ["lb1"]⟩ "ACTIVE" [] [FetchResult.err404]
        = LBWaitResult.waitFailed WaitError.fetchErr404) := by
  constructor
  · exact (lbWait_notFound_handling "lb1" "DELETED" [] [FetchResult.err404]
      ⟨"l1", ["lb1"]⟩ rfl).1 rfl
  · have h := (lbWait_notFound_handling "lb1" "ACTIVE" [] [FetchResult.err404]
      ⟨"l1", ["lb1"]⟩ rfl).2 (by simp)
    exact ⟨h.1, h.2 (by simp)⟩

/-- Embeds `resourceDNSRecordSetV2Create` of `src/unnamed/part_000` with the
external calls abstracted: `createResult` is the outcome of
`recordsets.Create` (carrying the new record set's ID), `fetches` drives the
status wait (target `ACTIVE`, pending `PENDING`), and `readResult` is the
outcome of the final `resourceDNSRecordSetV2Read`. As in the source, the
wait's result is assigned to `err` but never inspected before the ID is set
and the read result is returned. -/
def resourceDNSRecordSetV2Create (createResult : Except String String)
    (zoneID : String) (fetches : List FetchResult)
    (readResult : Except String Unit) : Except String String :=
  match createResult with
  | Except.error e =>
    Except.error ("Error creating openstack_dns_recordset_v2: " ++ e)
  | Except.ok recID =>
    let _err := waitForStatus fetches "ACTIVE" ["PENDING"]
    let id := zoneID ++ "/" ++ recID
    match readResult with
    | Except.ok _ => Except.ok id
    | Except.error e => Except.error e

/-- Embeds `resourceDNSRecordSetV2Update` of `src/unnamed/part_000`:
`updateResult` is the outcome of `recordsets.Update`, `fetches` drives the
status wait (target `ACTIVE`, pending `PENDING`), `readResult` the final
read. As in the source, the wait's result is assigned but never inspected. -/
def resourceDNSRecordSetV2Update (updateResult : Except String Unit)
    (fetches : List FetchResult) (readResult : Except String Unit) :
    Except String Unit :=
  match updateResult with
  | Except.error e =>
    Except.error ("Error updating openstack_dns_recordset_v2: " ++ e)
  | Except.ok _ =>
    let _err := waitForStatus fetches "ACTIVE" ["PENDING"]
    readResult

/-- Embeds `resourceDNSRecordSetV2Delete` of `src/unnamed/part_000`:
`checkDeleted` abstracts the `CheckDeleted` helper (defined outside src)
applied to a failing `recordsets.Delete`, and `fetches` drives the status
wait (target `DELETED`, pending `ACTIVE`/`PENDING`). As in the source, the
wait's result is assigned but never inspected and the function returns nil. -/
def resourceDNSRecordSetV2Delete (checkDeleted : String → Except String Unit)
    (deleteResult : Except String Unit) (fetches : List FetchResult) :
    Except String Unit :=
  match deleteResult with
  | Except.error e =>
    checkDeleted ("Error deleting openstack_dns_recordset_v2: " ++ e)
  | Except.ok _ =>
    let _err := waitForStatus fetches "DELETED" ["ACTIVE", "PENDING"]
    Except.ok ()

/-- C4: the DNS record-set create, update and delete operations discard the
status wait's error. On a fetch sequence that times out while the record set
is still `PENDING`, the wait itself reports a timeout carrying the last
observed status, yet create returns the new ID, update returns success, and
delete returns nil. -/
theorem dnsRecordSetV2_wait_error_discarded :
    waitForStatus [FetchResult.status "PENDING"] "ACTIVE" ["PENDING"]
      = Except.error (WaitError.timeout (some "PENDING")) ∧
    resourceDNSRecordSetV2Create (Except.ok "rs1") "zone1"
      [FetchResult.status "PENDING"] (Except.ok ()) = Except.ok "zone1/rs1" ∧
    resourceDNSRecordSetV2Update (Except.ok ())
      [FetchResult.status "PENDING"] (Except.ok ()) = Except.ok () ∧
    waitForStatus [FetchResult.status "PENDING"] "DELETED"
        ["ACTIVE", "PENDING"]
      = Except.error (WaitError.timeout (some "PENDING")) ∧
    resourceDNSRecordSetV2Delete (fun e => Except.error e) (Except.ok ())
      [FetchResult.status "PENDING"] = Except.ok () :=
  ⟨rfl, rfl, rfl, rfl, rfl⟩

/-- A lbaas v2 pool as relevant here: its ID, the IDs of the load balancers
it references (`pool.Loadbalancers`) and of the listeners it references
(`pool.Listeners`). -/
structure Pool where
  id : String
  loadbalancers : List String
  listeners : List String
deriving DecidableEq, Repr

/-- Embeds `lbV2FindLBIDviaPool` of `src/unnamed/part_001`: the pool's first
load-balancer reference wins; failing that, the first listener is fetched
(`getListener` abstracts `listeners.Get`) and its first load-balancer
reference is used; when neither relation yields a load balancer, an error is
returned. -/
def lbV2FindLBIDviaPool (getListener : String → Except String Listener)
    (pool : Pool) : Except String String :=
  match pool.loadbalancers with
  | lb :: _ => Except.ok lb
  | [] =>
    match pool.listeners with
    | listenerID :: _ =>
      match getListener listenerID with
      | Except.error e => Except.error e
      | Except.ok listener =>
        match listener.loadbalancers with
        | lb :: _ => Except.ok lb
        | [] =>
          Except.error
            ("Unable to determine loadbalancer ID from pool " ++ pool.id)
    | [] =>
      Except.error
        ("Unable to determine loadbalancer ID from pool " ++ pool.id)

/-- C6: `lbV2FindLBIDviaPool` returns the pool's first load-balancer ID when
that list is non-empty; otherwise, with a non-empty listener list whose first
listener resolves and itself references a load balancer, it returns that
listener's first load-balancer ID; and when neither relation yields a load
balancer it returns an error and no ID. -/
theorem lbV2FindLBIDviaPool_spec
    (getListener : String → Except String Listener) (pool : Pool) :
    (∀ lb rest, pool.loadbalancers = lb :: rest →
      lbV2FindLBIDviaPool getListener pool = Except.ok lb) ∧
    (∀ listenerID lrest listener lb rest,
      pool.loadbalancers = [] → pool.listeners = listenerID :: lrest →
      getListener listenerID = Except.ok listener →
      listener.loadbalancers = lb :: rest →
      lbV2FindLBIDviaPool getListener pool = Except.ok lb) ∧
    (pool.loadbalancers = [] →
      (pool.listeners = [] ∨
        (∃ listenerID lrest listener,
          pool.listeners = listenerID :: lrest ∧
          getListener listenerID = Except.ok listener ∧
          listener.loadbalancers = [])) →
      ∃ e, lbV2FindLBIDviaPool getListener pool = Except.error e) := by
  refine ⟨?_, ?_, ?_⟩
  · intro lb rest h
    simp [lbV2FindLBIDviaPool, h]
  · intro listenerID lrest listener lb rest h0 h1 h2 h3
    simp [lbV2FindLBIDviaPool, h0, h1, h2, h3]
  · intro h0 h
    rcases h with h1 | ⟨listenerID, lrest, listener, h1, h2, h3⟩
    · exact ⟨"Unable to determine loadbalancer ID from pool " ++ pool.id,
        by simp [lbV2FindLBIDviaPool, h0, h1]⟩
    · exact ⟨"Unable to determine loadbalancer ID from pool " ++ pool.id,
        by simp [lbV2FindLBIDviaPool, h0, h1, h2, h3]⟩

/-- C6 witness: a pool with a direct load-balancer reference, a pool that
resolves through its listener, and a pool with neither relation. -/
theorem lbV2FindLBIDviaPool_witness :
    lbV2FindLBIDviaPool (fun _ => Except.ok ⟨"l1", ["lb2"]⟩)
        ⟨"p1", ["lb1"], []⟩ = Except.ok "lb1" ∧
    lbV2FindLBIDviaPool (fun _ => Except.ok ⟨"l1", ["lb2"]⟩)
        ⟨"p2", [], ["l1"]⟩ = Except.ok "lb2" ∧
    ∃ e, lbV2FindLBIDviaPool (fun _ => Except.ok ⟨"l1", ["lb2"]⟩)
        ⟨"p3", [], []⟩ = Except.error e := by
  refine ⟨?_, ?_, ?_⟩
  · exact (lbV2FindLBIDviaPool_spec (fun _ => Except.ok ⟨"l1", ["lb2"]⟩)
      ⟨"p1", ["lb1"], []⟩).1 "lb1" [] rfl
  · exact (lbV2FindLBIDviaPool_spec (fun _ => Except.ok ⟨"l1", ["lb2"]⟩)
      ⟨"p2", [], ["l1"]⟩).2.1 "l1" [] ⟨"l1", ["lb2"]⟩ "lb2" [] rfl rfl rfl rfl
  · exact (lbV2FindLBIDviaPool_spec (fun _ => Except.ok ⟨"l1", ["lb2"]⟩)
      ⟨"p3", [], []⟩).2.2 rfl (Or.inl rfl)

/-- Embeds `lbPendingStatuses` of `src/unnamed/part_001`: the valid statuses
a load balancer will be in while it is updating. -/
def lbPendingStatuses : List String := ["PENDING_CREATE", "PENDING_UPDATE"]

/-- Embeds `lbPendingDeleteStatuses` of `src/unnamed/part_001`: the valid
statuses a load balancer will be in before delete. -/
def lbPendingDeleteStatuses : List String :=
  ["ERROR", "PENDING_UPDATE", "PENDING_DELETE", "ACTIVE"]

/-- A `resource.StateChangeConf` as constructed at one call site: the
constructing function, the target and pending status sets, the initial delay
and minimum inter-poll interval in seconds, and whether its refresh function
polls a load balancer's provisioning status
(`resourceLBV2LoadBalancerRefreshFunc`). -/
structure PollDescriptor where
  source : String
  target : List String
  pending : List String
  delaySec : Nat
  minTimeoutSec : Nat
  pollsLoadBalancerStatus : Bool
deriving DecidableEq, Repr

/-- Every `resource.StateChangeConf` constructed in src, with the
target/pending instantiations visible in src: the DNS record-set and
block-storage call sites are literal, while the parametric `waitForLBV2*`
helpers are instantiated with the pairings used by `resourceL7PolicyV2*`
(`ACTIVE` with `lbPendingStatuses` or nil) and the documented pairing of
`lbPendingDeleteStatuses` with target `DELETED`; for the sub-resource waits
the non-`DELETED` branch polls the owning load balancer and the `DELETED`
branch polls the sub-resource itself. -/
def pollDescriptors : List PollDescriptor :=
  [⟨"resourceDNSRecordSetV2Create", ["ACTIVE"], ["PENDING"], 5, 3, false⟩,
   ⟨"resourceDNSRecordSetV2Update", ["ACTIVE"], ["PENDING"], 5, 3, false⟩,
   ⟨"resourceDNSRecordSetV2Delete", ["DELETED"], ["ACTIVE", "PENDING"], 5, 3,
     false⟩,
   ⟨"resourceBlockStorageVolumeV1Create", ["available"],
     ["downloading", "creating"], 10, 3, false⟩,
   ⟨"resourceBlockStorageVolumeV1Delete detach wait", ["available"],
     ["in-use", "attaching", "detaching"], 10, 3, false⟩,
   ⟨"resourceBlockStorageVolumeV1Delete", ["deleted"],
     ["deleting", "downloading", "available"], 10, 3, false⟩,
   ⟨"waitForLBV2LoadBalancer", ["ACTIVE"], lbPendingStatuses, 0, 1, true⟩,
   ⟨"waitForLBV2LoadBalancer", ["DELETED"], lbPendingDeleteStatuses, 0, 1,
     true⟩,
   ⟨"waitForLBV2Listener", ["ACTIVE"], lbPendingStatuses, 1, 1, true⟩,
   ⟨"waitForLBV2Listener", ["DELETED"], [], 1, 1, false⟩,
   ⟨"waitForLBV2Member", ["ACTIVE"], lbPendingStatuses, 1, 1, true⟩,
   ⟨"waitForLBV2Member", ["DELETED"], [], 1, 1, false⟩,
   ⟨"waitForLBV2Monitor", ["ACTIVE"], lbPendingStatuses, 1, 1, true⟩,
   ⟨"waitForLBV2Monitor", ["DELETED"], [], 1, 1, false⟩,
   ⟨"waitForLBV2Pool", ["ACTIVE"], lbPendingStatuses, 1, 1, true⟩,
   ⟨"waitForLBV2Pool", ["ACTIVE"], [], 1, 1, true⟩,
   ⟨"waitForLBV2Pool", ["DELETED"], [], 1, 1, false⟩]

/-- C7: in every poll descriptor constructed in the code, the target status
set and the pending status set are disjoint: no target string is a member of
the pending list. -/
theorem pollDescriptors_target_pending_disjoint :
    pollDescriptors.all
      (fun d => d.target.all (fun t => !(d.pending.contains t))) = true := by
  decide

/-- C8 counterexample: the claim that every descriptor polling a load
balancer's status has initial delay 0 fails: the `waitForLBV2Listener`
descriptor polls the load balancer (non-`DELETED` branch) yet uses a delay
of 1 second. -/
theorem pollDescriptors_lb_delay_claim_false :
    ((⟨"waitForLBV2Listener", ["ACTIVE"], lbPendingStatuses, 1, 1, true⟩ :
        PollDescriptor) ∈ pollDescriptors) ∧
    ¬(pollDescriptors.all (fun d => decide (
        (if d.pollsLoadBalancerStatus then d.delaySec = 0
         else 1 ≤ d.delaySec ∧ d.delaySec ≤ 10) ∧
        1 ≤ d.minTimeoutSec ∧ d.minTimeoutSec ≤ 10)) = true) := by
  constructor
  · decide
  · decide

/-- C8 amended: only the two `waitForLBV2LoadBalancer` descriptors use an
initial delay of 0; every other descriptor, including the sub-resource waits
that poll the load balancer's status, uses a delay between 1 and 10 seconds;
and every descriptor's minimum inter-poll interval is between 1 and 10
seconds. -/
theorem pollDescriptors_delay_amended :
    pollDescriptors.all (fun d => decide (
      (d.source = "waitForLBV2LoadBalancer" → d.delaySec = 0) ∧
      (d.source ≠ "waitForLBV2LoadBalancer" →
        1 ≤ d.delaySec ∧ d.delaySec ≤ 10) ∧
      1 ≤ d.minTimeoutSec ∧ d.minTimeoutSec ≤ 10)) = true := by
  decide

/-- A block-storage v1 volume as relevant here: its status and its
attachments (server ID / attachment ID pairs). -/
structure Volume where
  status : String
  attachments : List (String × String)
deriving DecidableEq, Repr

/-- Embeds `resourceBlockStorageVolumeV1Delete` of
`openstack/resource_openstack_blockstorage_volume_v1.go` with the external
calls abstracted: `checkDeleted` abstracts the `CheckDeleted` helper (defined
outside src); `getResult` is the outcome of the initial `volumes.Get`;
`detachResult` the combined outcome of the `volumeattach.Delete` loop;
`availFetches` drives the detach wait (target `available`, pending
`in-use`/`attaching`/`detaching`); `deleteResult` the outcome of
`volumes.Delete`; `deleteFetches` drives the final wait (target `deleted`,
pending `deleting`/`downloading`/`available`). The delete request is issued
only when the fetched status is not `deleting`; the first component of the
result records whether it was issued. -/
def resourceBlockStorageVolumeV1Delete
    (checkDeleted : String → Except String Unit)
    (getResult : Except String Volume)
    (detachResult : Except String Unit)
    (availFetches : List FetchResult)
    (deleteResult : Except String Unit)
    (deleteFetches : List FetchResult) : Bool × Except String Unit :=
  match getResult with
  | Except.error e =>
    (false,
      checkDeleted ("Error retrieving openstack_blockstorage_volume_v1: " ++ e))
  | Except.ok v =>
    let detachPhase : Except String Unit :=
      if v.attachments.length > 0 then
        match detachResult with
        | Except.error e =>
          Except.error
            ("Error detaching openstack_blockstorage_volume_v1: " ++ e)
        | Except.ok _ =>
          match waitForStatus availFetches "available"
              ["in-use", "attaching", "detaching"] with
          | Except.ok _ => Except.ok ()
          | Except.error _ =>
            Except.error
              "Error waiting for openstack_blockstorage_volume_v1 to become available"
      else Except.ok ()
    match detachPhase with
    | Except.error e => (false, Except.error e)
    | Except.ok _ =>
      let finalWait : Except String Unit :=
        match waitForStatus deleteFetches "deleted"
            ["deleting", "downloading", "available"] with
        | Except.ok _ => Except.ok ()
        | Except.error _ =>
          Except.error
            "Error waiting for openstack_blockstorage_volume_v1 to delete"
      if v.status ≠ "deleting" then
        match deleteResult with
        | Except.error e =>
          (true,
            checkDeleted ("Error deleting openstack_blockstorage_volume_v1: " ++ e))
        | Except.ok _ => (true, finalWait)
      else (false, finalWait)

/-- C9: for a fetched, unattached volume whose delete request (when issued)
succeeds, the volume-delete request is issued exactly when the fetched status
is not `deleting`, and in both cases the operation then waits for status
`deleted` treating `deleting`, `downloading` and `available` as pending. -/
theorem blockStorageVolumeV1Delete_no_second_delete
    (checkDeleted : String → Except String Unit) (v : Volume)
    (detachResult : Except String Unit) (availFetches : List FetchResult)
    (deleteFetches : List FetchResult) (hAtt : v.attachments = []) :
    ((resourceBlockStorageVolumeV1Delete checkDeleted (Except.ok v)
        detachResult availFetches (Except.ok ()) deleteFetches).1 = true ↔
      v.status ≠ "deleting") ∧
    (resourceBlockStorageVolumeV1Delete checkDeleted (Except.ok v)
        detachResult availFetches (Except.ok ()) deleteFetches).2
      = (match waitForStatus deleteFetches "deleted"
            ["deleting", "downloading", "available"] with
         | Except.ok _ => Except.ok ()
         | Except.error _ =>
           Except.error
             "Error waiting for openstack_blockstorage_volume_v1 to delete") := by
  unfold resourceBlockStorageVolumeV1Delete
  by_cases hs : v.status = "deleting" <;> simp [hAtt, hs]

/-- C9 witness: an `available` volume is sent the delete request and the wait
succeeds once the volume reports `deleted`; a volume already `deleting` is
not sent the request yet the same wait still runs. -/
theorem blockStorageVolumeV1Delete_no_second_delete_witness :
    (resourceBlockStorageVolumeV1Delete (fun e => Except.error e)
        (Except.ok ⟨"available", []⟩) (Except.ok ()) []
        (Except.ok ()) [FetchResult.status "deleted"]).1 = true ∧
    (resourceBlockStorageVolumeV1Delete (fun e => Except.error e)
        (Except.ok ⟨"available", []⟩) (Except.ok ()) []
        (Except.ok ()) [FetchResult.status "deleted"]).2 = Except.ok () ∧
    (resourceBlockStorageVolumeV1Delete (fun e => Except.error e)
        (Except.ok ⟨"deleting", []⟩) (Except.ok ()) []
        (Except.ok ()) [FetchResult.status "deleted"]).1 = false := by
  have h1 := blockStorageVolumeV1Delete_no_second_delete
    (fun e => Except.error e) ⟨"available", []⟩ (Except.ok ()) []
    [FetchResult.status "deleted"] rfl
  have h2 := blockStorageVolumeV1Delete_no_second_delete
    (fun e => Except.error e) ⟨"deleting", []⟩ (Except.ok ()) []
    [FetchResult.status "deleted"] rfl
  refine ⟨h1.1.mpr (by simp), h1.2.trans rfl, ?_⟩
  by_contra hb
  simp only [Bool.not_eq_false] at hb
  exact (h2.1.mp hb) rfl

/-- A neutron subnet as relevant here: its CIDR. -/
structure Subnet where
  cidr : String
deriving DecidableEq, Repr

/-- Result of `subnets.Get` in the refinement loop: the subnet, a 404 (the
loop skips that subnet), or another error (the read aborts). -/
inductive SubnetGetResult where
  | ok (s : Subnet)
  | err404
  | errOther (msg : String)
deriving DecidableEq, Repr

/-- A neutron network with its external extension as relevant here: its ID
and the IDs of its subnets. -/
structure NetworkExt where
  id : String
  subnets : List String
deriving DecidableEq, Repr

/-- Inner loop of the `matching_subnet_cidr` refinement of
`dataSourceNetworkingNetworkV2Read`: one copy of the network is appended per
subnet whose fetched CIDR equals the filter; a 404 on a subnet skips it; any
other fetch error aborts the read. -/
def refineOne (getSubnet : String → SubnetGetResult) (cidr : String)
    (n : NetworkExt) : List String → Except String (List NetworkExt)
  | [] => Except.ok []
  | s :: rest =>
    match getSubnet s with
    | SubnetGetResult.err404 => refineOne getSubnet cidr n rest
    | SubnetGetResult.errOther m =>
      Except.error ("Unable to retrieve network subnet: " ++ m)
    | SubnetGetResult.ok subnet =>
      match refineOne getSubnet cidr n rest with
      | Except.error e => Except.error e
      | Except.ok l =>
        Except.ok (if cidr = subnet.cidr then n :: l else l)

/-- Outer loop of the refinement, over all listed networks in order. -/
def refineNetworks (getSubnet : String → SubnetGetResult) (cidr : String) :
    List NetworkExt → Except String (List NetworkExt)
  | [] => Except.ok []
  | n :: rest =>
    match refineOne getSubnet cidr n n.subnets with
    | Except.error e => Except.error e
    | Except.ok here =>
      match refineNetworks getSubnet cidr rest with
      | Except.error e => Except.error e
      | Except.ok there => Except.ok (here ++ there)

/-- Embeds `dataSourceNetworkingNetworkV2Read` of `src/unnamed/part_001`
after the network list request succeeded: `allNetworks` is the decoded list
and `cidr` the `matching_subnet_cidr` filter (empty string when unset, in
which case no refinement happens). Zero refined entries or more than one
yield an error and no ID; exactly one yields the network's ID to set. -/
def dataSourceNetworkingNetworkV2Read (getSubnet : String → SubnetGetResult)
    (allNetworks : List NetworkExt) (cidr : String) : Except String String :=
  match (if cidr ≠ "" then refineNetworks getSubnet cidr allNetworks
         else Except.ok allNetworks) with
  | Except.error e => Except.error e
  | Except.ok refined =>
    match refined with
    | [] =>
      Except.error
        "Your query returned no results. Please change your search criteria and try again."
    | [n] => Except.ok n.id
    | _ :: _ :: _ =>
      Except.error
        "Your query returned more than one result. Please try a more specific search criteria"

/-- C10: whenever the (possibly refined) network list is produced without a
fetch error, the read returns an ID exactly when that list has exactly one
entry, and it is then the first entry's ID; a list of length zero or greater
than one yields an error and no ID. -/
theorem dataSourceNetworkingNetworkV2Read_unique
    (getSubnet : String → SubnetGetResult) (allNetworks : List NetworkExt)
    (cidr : String) (refined : List NetworkExt)
    (href : (if cidr ≠ "" then refineNetworks getSubnet cidr allNetworks
             else Except.ok allNetworks) = Except.ok refined) :
    ((∃ netID, dataSourceNetworkingNetworkV2Read getSubnet allNetworks cidr
        = Except.ok netID) ↔ refined.length = 1) ∧
    (∀ n, refined = [n] →
      dataSourceNetworkingNetworkV2Read getSubnet allNetworks cidr
        = Except.ok n.id) := by
  unfold dataSourceNetworkingNetworkV2Read
  rw [href]
  rcases refined with _ | ⟨n, _ | ⟨b, t⟩⟩ <;> simp

/-- C10 witness: one network with a matching subnet is returned; two
networks with matching subnets yield no ID. -/
theorem dataSourceNetworkingNetworkV2Read_unique_witness :
    dataSourceNetworkingNetworkV2Read
        (fun _ => SubnetGetResult.ok ⟨"10.0.0.0/24"⟩)
        [⟨"net1", ["s1"]⟩, ⟨"net2", []⟩] "10.0.0.0/24" = Except.ok "net1" ∧
    ¬(∃ netID, dataSourceNetworkingNetworkV2Read
        (fun _ => SubnetGetResult.ok ⟨"10.0.0.0/24"⟩)
        [⟨"net1", ["s1"]⟩, ⟨"net3", ["s2"]⟩] "10.0.0.0/24"
      = Except.ok netID) := by
  constructor
  · exact (dataSourceNetworkingNetworkV2Read_unique
      (fun _ => SubnetGetResult.ok ⟨"10.0.0.0/24"⟩)
      [⟨"net1", ["s1"]⟩, ⟨"net2", []⟩] "10.0.0.0/24"
      [⟨"net1", ["s1"]⟩] rfl).2 ⟨"net1", ["s1"]⟩ rfl
  · intro h
    have hlen := (dataSourceNetworkingNetworkV2Read_unique
      (fun _ => SubnetGetResult.ok ⟨"10.0.0.0/24"⟩)
      [⟨"net1", ["s1"]⟩, ⟨"net3", ["s2"]⟩] "10.0.0.0/24"
      [⟨"net1", ["s1"]⟩, ⟨"net3", ["s2"]⟩] rfl).1.mp h
    simp at hlen
